import Mathlib

/-!
Verification development for the Timestamper repository
(`timestamper.py` and `exif_editor.py`).

The development shallowly embeds the two source files:

* the static datetime helpers of `exif_editor.py`
  (`parse_datetime`, `format_datetime`, `is_valid_datetime_format`),
  modelled at the level of lists of characters.  `parse_datetime` calls
  `datetime.datetime.strptime(dt_str, '%Y:%m:%d %H:%M:%S')`; CPython's
  `_strptime` compiles that format to the anchored regular expression
  `\d\d\d\d:(1[0-2]|0[1-9]|[1-9]):(3[01]|[12]\d|0[1-9]|[1-9])\s+`
  `(2[0-3]|[0-1]\d|\d):([0-5]\d|\d):(6[0-1]|[0-5]\d|\d)`
  (a literal whitespace in the format matches a run of whitespace),
  requires the match to consume the whole string, converts every group
  with `int`, and finally calls the `datetime.datetime` constructor,
  which rejects year 0, days beyond the month length, and seconds 60/61.
  Digits are modelled as the ASCII digits (EXIF timestamps are ASCII).
  `format_datetime` uses `strftime('%Y:%m:%d %H:%M:%S')`, which CPython
  delegates to the platform C library; `%m %d %H %M %S` zero-pad to two
  digits, while `%Y` on glibc/BSD prints the year *unpadded*, so years
  below 1000 come out with fewer than four digits
  (`datetime(999, 1, 1).strftime('%Y') == '999'`).  The model renders the
  year that way; `datetime` years never exceed 9999 (`MAXYEAR`), so four
  digits is the most the program can produce.

* the `ExifEditor` instance state (`_date_time_original`, `_user_comment`,
  `_writable`, `_metadata_read`) as a record, with the exiftool subprocess
  abstracted by a per-file `ToolBehavior` (the exit status of the read,
  the trial write probe, and the combined update invocation) and the
  on-disk tag values by a `FileState`.  A successful probe really clears
  the `UserComment` tag on the file, exactly as
  `exiftool -m -overwrite_original_in_place -UserComment=` does.

* the batch loop `process_files` of `timestamper.py` as a left fold over
  the file list.  Timestamps are rational numbers of seconds measured
  from an arbitrary epoch: `start_dt + interval_delta * file_index` is
  exact arithmetic in Python (`timedelta` keeps microseconds and is
  multiplied, not repeatedly added), so the model keeps
  `start + interval * file_index` in `ℚ`; the rendering of a rational
  instant back to calendar text is abstracted by a `fmt` parameter,
  which no claim inspects.  An unexpected per-file exception (the
  `except` arms of the loop) is modelled by the `raises` flag of a
  `FileCase`.  The `outcomes`, `writableCalls` and `updateCalls` fields
  of `RunState` instrument the classification and the call sites of
  `is_writable` / `update_datetime_and_comment` in the loop body; the
  remaining fields are the counters of the source.
-/

namespace Timestamper

/-- The fields extracted by `strptime` and handed to the
`datetime.datetime` constructor. -/
structure Datetime where
  year : Nat
  month : Nat
  day : Nat
  hour : Nat
  minute : Nat
  second : Nat
  deriving DecidableEq

/-- Numeric value of an ASCII digit character. -/
def charVal (c : Char) : Nat := c.toNat - 48

/-- ASCII decimal digit, the `\d` of the compiled strptime pattern. -/
def isDig (c : Char) : Bool := decide (48 ≤ c.toNat) && decide (c.toNat ≤ 57)

/-- ASCII whitespace, the `\s` of the compiled strptime pattern. -/
def isSpace (c : Char) : Bool :=
  c == ' ' || c == '\t' || c == '\n' || c == '\r' || c == '\x0b' || c == '\x0c'

/-- All characters of a token are digits. -/
def allDigits (t : List Char) : Bool := t.all isDig

/-- `int` applied to a digit token. -/
def toNatTok (t : List Char) : Nat := t.foldl (fun a c => 10 * a + charVal c) 0

/-- Split a character list at every occurrence of `sep` (the fixed `:`
separators of the pattern delimit the digit groups, which contain no
separator themselves). -/
def splitOnChar (sep : Char) : List Char → List (List Char)
  | [] => [[]]
  | c :: cs =>
    if c = sep then [] :: splitOnChar sep cs
    else
      match splitOnChar sep cs with
      | [] => [[c]]
      | t :: ts => (c :: t) :: ts

/-- `%Y` group: `\d\d\d\d`. -/
def yearTokOk (t : List Char) : Prop := t.length = 4 ∧ allDigits t = true

/-- `%m` group: `1[0-2]|0[1-9]|[1-9]`. -/
def monthTokOk (t : List Char) : Prop :=
  allDigits t = true ∧
    ((t.length = 1 ∧ 1 ≤ toNatTok t) ∨
      (t.length = 2 ∧ 1 ≤ toNatTok t ∧ toNatTok t ≤ 12))

/-- `%d` group: `3[01]|[12]\d|0[1-9]|[1-9]`. -/
def dayTokOk (t : List Char) : Prop :=
  allDigits t = true ∧
    ((t.length = 1 ∧ 1 ≤ toNatTok t) ∨
      (t.length = 2 ∧ 1 ≤ toNatTok t ∧ toNatTok t ≤ 31))

/-- `%H` group: `2[0-3]|[0-1]\d|\d`. -/
def hourTokOk (t : List Char) : Prop :=
  allDigits t = true ∧ (t.length = 1 ∨ (t.length = 2 ∧ toNatTok t ≤ 23))

/-- `%M` group: `[0-5]\d|\d`. -/
def minuteTokOk (t : List Char) : Prop :=
  allDigits t = true ∧ (t.length = 1 ∨ (t.length = 2 ∧ toNatTok t ≤ 59))

/-- `%S` group: `6[0-1]|[0-5]\d|\d` (the textual pattern admits the leap
seconds 60 and 61; the `datetime` constructor rejects them afterwards). -/
def secondTokOk (t : List Char) : Prop :=
  allDigits t = true ∧ (t.length = 1 ∨ (t.length = 2 ∧ toNatTok t ≤ 61))

/-- Gregorian leap-year rule used by the `datetime` module. -/
def isLeapYear (y : Nat) : Bool := (y % 4 == 0 && y % 100 != 0) || y % 400 == 0

/-- Length of a month, as validated by the `datetime.datetime` constructor. -/
def daysInMonth (y m : Nat) : Nat :=
  if m = 2 then (if isLeapYear y then 29 else 28)
  else if m = 4 ∨ m = 6 ∨ m = 9 ∨ m = 11 then 30
  else 31

/-- The range checks of the `datetime.datetime` constructor
(`MINYEAR = 1`, `MAXYEAR = 9999`, calendar day range, 24h clock,
seconds strictly below 60). -/
def datetimeCtorOk (dt : Datetime) : Prop :=
  1 ≤ dt.year ∧ dt.year ≤ 9999 ∧ 1 ≤ dt.month ∧ dt.month ≤ 12 ∧
    1 ≤ dt.day ∧ dt.day ≤ daysInMonth dt.year dt.month ∧
    dt.hour ≤ 23 ∧ dt.minute ≤ 59 ∧ dt.second ≤ 59

instance (t : List Char) : Decidable (yearTokOk t) := by unfold yearTokOk; infer_instance

instance (t : List Char) : Decidable (monthTokOk t) := by unfold monthTokOk; infer_instance

instance (t : List Char) : Decidable (dayTokOk t) := by unfold dayTokOk; infer_instance

instance (t : List Char) : Decidable (hourTokOk t) := by unfold hourTokOk; infer_instance

instance (t : List Char) : Decidable (minuteTokOk t) := by unfold minuteTokOk; infer_instance

instance (t : List Char) : Decidable (secondTokOk t) := by unfold secondTokOk; infer_instance

instance (dt : Datetime) : Decidable (datetimeCtorOk dt) := by unfold datetimeCtorOk; infer_instance

/-- `ExifEditor.parse_datetime` (`exif_editor.py`, lines 190-193):
`datetime.datetime.strptime(dt_str, '%Y:%m:%d %H:%M:%S')`, returning
`none` where Python raises `ValueError`.  The date part is the maximal
whitespace-free run at the start of the string, the literal whitespace of
the format consumes the following whitespace run, and the six digit
groups are delimited by the fixed `:` separators; stray characters
anywhere make a group check fail, which is Python's "unconverted data
remains" / failed match. -/
def parse_datetime (s : List Char) : Option Datetime :=
  let datePart := s.takeWhile (fun c => !isSpace c)
  let rest := s.dropWhile (fun c => !isSpace c)
  if rest = [] then none
  else
    let timePart := rest.dropWhile isSpace
    match splitOnChar ':' datePart, splitOnChar ':' timePart with
    | [y, mo, d], [h, mi, sec] =>
      if yearTokOk y ∧ monthTokOk mo ∧ dayTokOk d ∧ hourTokOk h ∧
          minuteTokOk mi ∧ secondTokOk sec then
        let dt : Datetime :=
          ⟨toNatTok y, toNatTok mo, toNatTok d, toNatTok h, toNatTok mi, toNatTok sec⟩
        if datetimeCtorOk dt then some dt else none
      else none
    | _, _ => none

/-- `ExifEditor.is_valid_datetime_format` (`exif_editor.py`, lines
181-188): true exactly when `parse_datetime` does not raise. -/
def is_valid_datetime_format (s : List Char) : Bool := (parse_datetime s).isSome

/-- Two-digit zero-padded rendering (`%m`, `%d`, `%H`, `%M`, `%S`). -/
def twoDigit (n : Nat) : List Char := [Nat.digitChar (n / 10), Nat.digitChar (n % 10)]

/-- Four-digit decimal rendering, the shape `%Y` takes for years
1000-9999. -/
def fourDigit (n : Nat) : List Char :=
  [Nat.digitChar (n / 1000), Nat.digitChar (n / 100 % 10),
    Nat.digitChar (n / 10 % 10), Nat.digitChar (n % 10)]

/-- The `%Y` directive as rendered by the platform `strftime` CPython
delegates to: glibc/BSD print the year unpadded, so years below 1000
come out with one, two or three digits (`datetime(999, 1, 1)` prints as
`'999'`).  `datetime` years are confined to 1-9999 (`MINYEAR`/`MAXYEAR`),
so at most four digits ever occur in the program. -/
def yearChars (n : Nat) : List Char :=
  if n < 10 then [Nat.digitChar n]
  else if n < 100 then [Nat.digitChar (n / 10), Nat.digitChar (n % 10)]
  else if n < 1000 then
    [Nat.digitChar (n / 100), Nat.digitChar (n / 10 % 10), Nat.digitChar (n % 10)]
  else fourDigit n

/-- `ExifEditor.format_datetime` (`exif_editor.py`, lines 195-198):
`dt_obj.strftime('%Y:%m:%d %H:%M:%S')`, with `%Y` unpadded below year
1000 as on glibc/BSD. -/
def format_datetime (dt : Datetime) : List Char :=
  yearChars dt.year ++ ':' :: twoDigit dt.month ++ ':' :: twoDigit dt.day ++
    ' ' :: twoDigit dt.hour ++ ':' :: twoDigit dt.minute ++ ':' :: twoDigit dt.second

/-- Modelled from the spec: the canonical textual form
`YYYY:MM:DD HH:MM:SS` — every field zero-padded to fixed width, single
space, naming a valid calendar moment of the `datetime` range.  This is
the specification-side description of a valid canonical string, used to
compare the specified format against the behaviour of the source's
parser. -/
def canonicalValidFormat (s : List Char) : Bool :=
  match s with
  | [y1, y2, y3, y4, c1, m1, m2, c2, d1, d2, sp, h1, h2, c3, n1, n2, c4, s1, s2] =>
    decide (c1 = ':' ∧ c2 = ':' ∧ sp = ' ' ∧ c3 = ':' ∧ c4 = ':' ∧
      isDig y1 = true ∧ isDig y2 = true ∧ isDig y3 = true ∧ isDig y4 = true ∧
      isDig m1 = true ∧ isDig m2 = true ∧ isDig d1 = true ∧ isDig d2 = true ∧
      isDig h1 = true ∧ isDig h2 = true ∧ isDig n1 = true ∧ isDig n2 = true ∧
      isDig s1 = true ∧ isDig s2 = true ∧
      1 ≤ 10 * (10 * (10 * charVal y1 + charVal y2) + charVal y3) + charVal y4 ∧
      1 ≤ 10 * charVal m1 + charVal m2 ∧ 10 * charVal m1 + charVal m2 ≤ 12 ∧
      1 ≤ 10 * charVal d1 + charVal d2 ∧
      10 * charVal d1 + charVal d2 ≤
        daysInMonth (10 * (10 * (10 * charVal y1 + charVal y2) + charVal y3) + charVal y4)
          (10 * charVal m1 + charVal m2) ∧
      10 * charVal h1 + charVal h2 ≤ 23 ∧
      10 * charVal n1 + charVal n2 ≤ 59 ∧
      10 * charVal s1 + charVal s2 ≤ 59)
  | _ => false

/-- Exit statuses of the three exiftool invocations an `ExifEditor` can
issue for its file: the metadata read, the trial write probe of
`is_writable`, and the combined update write. -/
structure ToolBehavior where
  readOk : Bool
  probeOk : Bool
  updateOk : Bool
  deriving DecidableEq

/-- The tag values on disk, plus the OS write permission consulted by
`os.access(self.file_path, os.W_OK)`. -/
structure FileState where
  dateTimeOriginal : Option String
  userComment : Option String
  osWritable : Bool
  deriving DecidableEq

/-- The mutable per-instance state of an `ExifEditor`
(`self._date_time_original`, `self._user_comment`, `self._writable`,
`self._metadata_read`). -/
structure ExifEditor where
  date_time_original : Option String
  user_comment : Option String
  writable : Option Bool
  metadata_read : Bool
  deriving DecidableEq

/-- `ExifEditor.__init__` (lines 23-29): all caches empty. -/
def ExifEditor.init : ExifEditor := ⟨none, none, none, false⟩

/-- `ExifEditor.read_metadata` (lines 63-90): idempotent; on a zero exit
status caches `DateTimeOriginal` (absent tag stays absent) and
`UserComment` (absent tag becomes the empty string); on failure returns
false leaving the instance untouched. -/
def read_metadata (beh : ToolBehavior) (ed : ExifEditor) (fs : FileState) :
    Bool × ExifEditor :=
  if ed.metadata_read then (true, ed)
  else if beh.readOk then
    (true, { ed with
      date_time_original := fs.dateTimeOriginal,
      user_comment := some (fs.userComment.getD ""),
      metadata_read := true })
  else (false, ed)

/-- The `date_time_original` property (lines 92-97): lazily triggers the
read, then returns the cached value. -/
def date_time_original_prop (beh : ToolBehavior) (ed : ExifEditor) (fs : FileState) :
    Option String × ExifEditor :=
  if ed.metadata_read then (ed.date_time_original, ed)
  else
    let r := read_metadata beh ed fs
    (r.2.date_time_original, r.2)

/-- The `user_comment` property (lines 99-105): lazily triggers the read,
then returns the cached value, never `None`. -/
def user_comment_prop (beh : ToolBehavior) (ed : ExifEditor) (fs : FileState) :
    String × ExifEditor :=
  if ed.metadata_read then (ed.user_comment.getD "", ed)
  else
    let r := read_metadata beh ed fs
    (r.2.user_comment.getD "", r.2)

/-- `ExifEditor.is_writable` (lines 108-134): memoized; first the OS
permission check, then the trial write
`exiftool -m -overwrite_original_in_place -UserComment=`, whose success
really deletes the `UserComment` tag from the file. -/
def is_writable (beh : ToolBehavior) (ed : ExifEditor) (fs : FileState) :
    Bool × ExifEditor × FileState :=
  match ed.writable with
  | some b => (b, ed, fs)
  | none =>
    if !fs.osWritable then (false, { ed with writable := some false }, fs)
    else if beh.probeOk then
      (true, { ed with writable := some true }, { fs with userComment := none })
    else (false, { ed with writable := some false }, fs)

/-- Lines 158-159 of `exif_editor.py`: the new comment joins the current
comment and the addition with a single space exactly when both are
non-empty (Python string truthiness). -/
def combineComment (current_comment comment_addition : String) : String :=
  let separator := if current_comment ≠ "" ∧ comment_addition ≠ "" then " " else ""
  current_comment ++ separator ++ comment_addition

/-- `ExifEditor.update_datetime_and_comment` (lines 136-179): fail fast
if not writable; ensure metadata is read (abort on a failing read); build
the combined comment; one combined write invocation which on success
updates the file and the cached instance state in place, and on failure
changes nothing beyond what `is_writable` already did. -/
def update_datetime_and_comment (beh : ToolBehavior)
    (new_datetime_str comment_addition : String)
    (ed : ExifEditor) (fs : FileState) : Bool × ExifEditor × FileState :=
  let w := is_writable beh ed fs
  if !w.1 then (false, w.2.1, w.2.2)
  else
    let ed1 := w.2.1
    let fs1 := w.2.2
    let r := read_metadata beh ed1 fs1
    if !r.1 then (false, r.2, fs1)
    else
      let cc := user_comment_prop beh r.2 fs1
      let new_comment := combineComment cc.1 comment_addition
      if beh.updateOk then
        (true,
          { cc.2 with
            date_time_original := some new_datetime_str,
            user_comment := some new_comment },
          { fs1 with
            dateTimeOriginal := some new_datetime_str,
            userComment := some new_comment })
      else (false, cc.2, fs1)

/-- Classification of one file by the batch loop: `succeeded` carries the
candidate timestamp that was displayed (dry run) or committed. -/
inductive Outcome where
  | succeeded (ts : ℚ)
  | skipped
  | failed
  deriving DecidableEq

/-- One input file of `process_files`: whether processing it raises an
unexpected exception (the `except` arms of the loop body), the exit
statuses of its tool invocations, and its on-disk state. -/
structure FileCase where
  raises : Bool
  behavior : ToolBehavior
  state : FileState
  deriving DecidableEq

/-- The loop state of `process_files` (`timestamper.py`, lines 100-104):
the three counters and `file_index`, plus instrumentation recording the
per-file classifications and how often the loop body called
`is_writable` and `update_datetime_and_comment`. -/
structure RunState where
  processed_count : Nat
  skipped_count : Nat
  error_count : Nat
  file_index : Nat
  outcomes : List Outcome
  writableCalls : Nat
  updateCalls : Nat
  deriving DecidableEq

/-- Initial loop state: all counters zero. -/
def initRunState : RunState := ⟨0, 0, 0, 0, [], 0, 0⟩

/-- Lines 125-150 of `timestamper.py`, reached after the read succeeded
and (in a real run) the writability check passed: compute
`current_dt = start_dt + interval_delta * file_index`, build the comment
string, then either count a simulated success (dry run) or call
`update_datetime_and_comment` and classify by its result; only a real
successful write advances `file_index`. -/
def processEligible (start_dt interval_sec : ℚ) (fmt : ℚ → String) (fix_id : String)
    (dry_run : Bool) (st : RunState) (beh : ToolBehavior)
    (ed : ExifEditor) (fs : FileState) : RunState :=
  let current_dt := start_dt + interval_sec * (st.file_index : ℚ)
  let new_datetime_str := fmt current_dt
  let dto := date_time_original_prop beh ed fs
  let original_dt_str :=
    match dto.1 with
    | some s => if s = "" then "None" else s
    | none => "None"
  let fix_comment :=
    "AdjustedDateTime_" ++ fix_id ++ "[" ++ original_dt_str ++ " -> " ++
      new_datetime_str ++ "]"
  if dry_run then
    { st with
      processed_count := st.processed_count + 1,
      outcomes := st.outcomes ++ [Outcome.succeeded current_dt] }
  else
    let u := update_datetime_and_comment beh new_datetime_str fix_comment dto.2 fs
    let st1 := { st with updateCalls := st.updateCalls + 1 }
    if u.1 then
      { st1 with
        processed_count := st1.processed_count + 1,
        file_index := st1.file_index + 1,
        outcomes := st1.outcomes ++ [Outcome.succeeded current_dt] }
    else
      { st1 with
        error_count := st1.error_count + 1,
        outcomes := st1.outcomes ++ [Outcome.failed] }

/-- The body of the `for` loop of `process_files` (lines 106-157) for a
single file: construct a fresh editor, read metadata (skip on failure),
in a real run check writability (skip on failure), then fall through to
the eligible-file part; an unexpected exception is caught and counted as
an error. -/
def processOne (start_dt interval_sec : ℚ) (fmt : ℚ → String) (fix_id : String)
    (dry_run : Bool) (st : RunState) (f : FileCase) : RunState :=
  if f.raises then
    { st with
      error_count := st.error_count + 1,
      outcomes := st.outcomes ++ [Outcome.failed] }
  else
    let r := read_metadata f.behavior ExifEditor.init f.state
    if !r.1 then
      { st with
        skipped_count := st.skipped_count + 1,
        outcomes := st.outcomes ++ [Outcome.skipped] }
    else
      if dry_run then
        processEligible start_dt interval_sec fmt fix_id dry_run st f.behavior r.2 f.state
      else
        let w := is_writable f.behavior r.2 f.state
        let st1 := { st with writableCalls := st.writableCalls + 1 }
        if !w.1 then
          { st1 with
            skipped_count := st1.skipped_count + 1,
            outcomes := st1.outcomes ++ [Outcome.skipped] }
        else
          processEligible start_dt interval_sec fmt fix_id dry_run st1 f.behavior w.2.1 w.2.2

/-- `process_files` (`timestamper.py`, lines 98-165): one sequential pass
over the file list. -/
def process_files (files : List FileCase) (start_dt interval_sec : ℚ)
    (fmt : ℚ → String) (fix_id : String) (dry_run : Bool) : RunState :=
  files.foldl (processOne start_dt interval_sec fmt fix_id dry_run) initRunState

/-- The sequence of committed (or, in a dry run, displayed) candidate
timestamps, in processing order. -/
def succTs (l : List Outcome) : List ℚ :=
  l.filterMap (fun o => match o with | Outcome.succeeded t => some t | _ => none)

/-! ### Character and token lemmas -/

theorem daysInMonth_le_31 (y m : Nat) : daysInMonth y m ≤ 31 := by
  unfold daysInMonth
  split_ifs <;> omega

theorem isDig_ne_colon (c : Char) (h : isDig c = true) : c ≠ ':' := by
  intro hc
  subst hc
  exact absurd h (by decide)

theorem isDig_not_space (c : Char) (h : isDig c = true) : isSpace c = false := by
  simp only [isDig, Bool.and_eq_true, decide_eq_true_eq] at h
  have key : ∀ d : Char, d.toNat < 48 → (c == d) = false := by
    intro d hd
    rw [beq_eq_false_iff_ne]
    intro hcd
    subst hcd
    omega
  simp [isSpace, key ' ' (by decide), key '\t' (by decide), key '\n' (by decide),
    key '\r' (by decide), key '\x0b' (by decide), key '\x0c' (by decide)]

theorem isDig_bnot_space (c : Char) (h : isDig c = true) : (!isSpace c) = true := by
  rw [isDig_not_space c h]
  rfl

theorem charVal_le_nine (c : Char) (h : isDig c = true) : charVal c ≤ 9 := by
  simp only [isDig, Bool.and_eq_true, decide_eq_true_eq] at h
  simp only [charVal]
  omega

theorem digitChar_charVal (c : Char) (h : isDig c = true) :
    Nat.digitChar (charVal c) = c := by
  simp only [isDig, Bool.and_eq_true, decide_eq_true_eq] at h
  obtain ⟨h1, h2⟩ := h
  have hofn := Char.ofNat_toNat c
  conv_rhs => rw [← hofn]
  simp only [charVal]
  interval_cases h : c.toNat <;> decide

theorem toNatTok_two (a b : Char) : toNatTok [a, b] = 10 * charVal a + charVal b := by
  simp [toNatTok]

theorem toNatTok_four (a b c d : Char) :
    toNatTok [a, b, c, d] =
      10 * (10 * (10 * charVal a + charVal b) + charVal c) + charVal d := by
  simp [toNatTok]

theorem twoDigit_charVal (a b : Char) (ha : isDig a = true) (hb : isDig b = true) :
    twoDigit (10 * charVal a + charVal b) = [a, b] := by
  have ha9 := charVal_le_nine a ha
  have hb9 := charVal_le_nine b hb
  have h1 : (10 * charVal a + charVal b) / 10 = charVal a := by omega
  have h2 : (10 * charVal a + charVal b) % 10 = charVal b := by omega
  simp [twoDigit, h1, h2, digitChar_charVal a ha, digitChar_charVal b hb]

theorem fourDigit_charVal (a b c d : Char) (ha : isDig a = true) (hb : isDig b = true)
    (hc : isDig c = true) (hd : isDig d = true) :
    fourDigit (10 * (10 * (10 * charVal a + charVal b) + charVal c) + charVal d) =
      [a, b, c, d] := by
  have ha9 := charVal_le_nine a ha
  have hb9 := charVal_le_nine b hb
  have hc9 := charVal_le_nine c hc
  have hd9 := charVal_le_nine d hd
  have h1 : (10 * (10 * (10 * charVal a + charVal b) + charVal c) + charVal d) / 1000
      = charVal a := by omega
  have h2 : (10 * (10 * (10 * charVal a + charVal b) + charVal c) + charVal d) / 100 % 10
      = charVal b := by omega
  have h3 : (10 * (10 * (10 * charVal a + charVal b) + charVal c) + charVal d) / 10 % 10
      = charVal c := by omega
  have h4 : (10 * (10 * (10 * charVal a + charVal b) + charVal c) + charVal d) % 10
      = charVal d := by omega
  simp [fourDigit, h1, h2, h3, h4, digitChar_charVal a ha, digitChar_charVal b hb,
    digitChar_charVal c hc, digitChar_charVal d hd]

/-! ### takeWhile / dropWhile / splitOnChar lemmas -/

theorem takeWhile_append_cons (p : Char → Bool) (l : List Char) (x : Char) (r : List Char)
    (hl : ∀ c ∈ l, p c = true) (hx : p x = false) :
    ((l ++ x :: r).takeWhile p) = l := by
  induction l with
  | nil => simp [List.takeWhile, hx]
  | cons a as ih =>
    have ha : p a = true := hl a (by simp)
    simp only [List.cons_append, List.takeWhile, ha, List.append_eq]
    rw [ih (fun c hc => hl c (by simp [hc]))]

theorem dropWhile_append_cons (p : Char → Bool) (l : List Char) (x : Char) (r : List Char)
    (hl : ∀ c ∈ l, p c = true) (hx : p x = false) :
    ((l ++ x :: r).dropWhile p) = x :: r := by
  induction l with
  | nil => simp [List.dropWhile, hx]
  | cons a as ih =>
    have ha : p a = true := hl a (by simp)
    simp only [List.cons_append, List.dropWhile, ha, List.append_eq]
    exact ih (fun c hc => hl c (by simp [hc]))

theorem splitOnChar_not_mem (sep : Char) (l : List Char) (h : sep ∉ l) :
    splitOnChar sep l = [l] := by
  induction l with
  | nil => rfl
  | cons a as ih =>
    have hne : ¬(a = sep) := by
      intro hc
      exact h (by simp [hc])
    have h' : sep ∉ as := fun hm => h (by simp [hm])
    simp [splitOnChar, hne, ih h']

theorem splitOnChar_append (sep : Char) (l r : List Char) (h : sep ∉ l) :
    splitOnChar sep (l ++ sep :: r) = l :: splitOnChar sep r := by
  induction l with
  | nil => simp [splitOnChar]
  | cons a as ih =>
    have hne : ¬(a = sep) := by
      intro hc
      exact h (by simp [hc])
    have h' : sep ∉ as := fun hm => h (by simp [hm])
    simp only [List.cons_append, splitOnChar, if_neg hne, List.append_eq]
    rw [ih h']

/-! ### Canonical strings parse and print back -/

theorem canonical_parse_format (s : List Char) (h : canonicalValidFormat s = true) :
    ∃ dt : Datetime, parse_datetime s = some dt ∧
      (1000 ≤ dt.year → format_datetime dt = s) := by
  unfold canonicalValidFormat at h
  split at h
  case h_2 => exact absurd h (by simp)
  case h_1 a1 a2 a3 a4 c1 b1 b2 c2 e1 e2 sp f1 f2 c3 g1 g2 c4 k1 k2 =>
    rw [decide_eq_true_eq] at h
    obtain ⟨hc1, hc2, hsp, hc3, hc4, ha1, ha2, ha3, ha4, hb1, hb2, he1, he2, hf1, hf2,
      hg1, hg2, hk1, hk2, hyr, hmo1, hmo2, hdy1, hdy2, hhr, hmi, hsec⟩ := h
    subst hc1 hc2 hsp hc3 hc4
    have hdp : ∀ c ∈ ([a1, a2, a3, a4, ':', b1, b2, ':', e1, e2] : List Char),
        (fun c => !isSpace c) c = true := by
      intro c hc
      simp only [List.mem_cons, List.not_mem_nil, or_false] at hc
      rcases hc with rfl | rfl | rfl | rfl | rfl | rfl | rfl | rfl | rfl | rfl
      · exact isDig_bnot_space _ ha1
      · exact isDig_bnot_space _ ha2
      · exact isDig_bnot_space _ ha3
      · exact isDig_bnot_space _ ha4
      · decide
      · exact isDig_bnot_space _ hb1
      · exact isDig_bnot_space _ hb2
      · decide
      · exact isDig_bnot_space _ he1
      · exact isDig_bnot_space _ he2
    have etake : List.takeWhile (fun c => !isSpace c)
        [a1, a2, a3, a4, ':', b1, b2, ':', e1, e2, ' ',
          f1, f2, ':', g1, g2, ':', k1, k2]
        = [a1, a2, a3, a4, ':', b1, b2, ':', e1, e2] :=
      takeWhile_append_cons _ [a1, a2, a3, a4, ':', b1, b2, ':', e1, e2] ' '
        [f1, f2, ':', g1, g2, ':', k1, k2] hdp (by decide)
    have edrop : List.dropWhile (fun c => !isSpace c)
        [a1, a2, a3, a4, ':', b1, b2, ':', e1, e2, ' ',
          f1, f2, ':', g1, g2, ':', k1, k2]
        = ' ' :: [f1, f2, ':', g1, g2, ':', k1, k2] :=
      dropWhile_append_cons _ [a1, a2, a3, a4, ':', b1, b2, ':', e1, e2] ' '
        [f1, f2, ':', g1, g2, ':', k1, k2] hdp (by decide)
    have etime : List.dropWhile isSpace (' ' :: [f1, f2, ':', g1, g2, ':', k1, k2])
        = [f1, f2, ':', g1, g2, ':', k1, k2] := by
      have hf1s : isSpace f1 = false := isDig_not_space f1 hf1
      have hsps : isSpace ' ' = true := by decide
      simp [List.dropWhile, hsps, hf1s]
    have edsplit : splitOnChar ':' [a1, a2, a3, a4, ':', b1, b2, ':', e1, e2]
        = [[a1, a2, a3, a4], [b1, b2], [e1, e2]] := by
      have n1 : ':' ∉ ([a1, a2, a3, a4] : List Char) := by
        simp only [List.mem_cons, List.not_mem_nil, or_false]
        push_neg
        exact ⟨Ne.symm (isDig_ne_colon _ ha1), Ne.symm (isDig_ne_colon _ ha2),
          Ne.symm (isDig_ne_colon _ ha3), Ne.symm (isDig_ne_colon _ ha4)⟩
      have n2 : ':' ∉ ([b1, b2] : List Char) := by
        simp only [List.mem_cons, List.not_mem_nil, or_false]
        push_neg
        exact ⟨Ne.symm (isDig_ne_colon _ hb1), Ne.symm (isDig_ne_colon _ hb2)⟩
      have n3 : ':' ∉ ([e1, e2] : List Char) := by
        simp only [List.mem_cons, List.not_mem_nil, or_false]
        push_neg
        exact ⟨Ne.symm (isDig_ne_colon _ he1), Ne.symm (isDig_ne_colon _ he2)⟩
      have s1 := splitOnChar_append ':' [a1, a2, a3, a4] ([b1, b2] ++ ':' :: [e1, e2]) n1
      have s2 := splitOnChar_append ':' [b1, b2] [e1, e2] n2
      have s3 := splitOnChar_not_mem ':' [e1, e2] n3
      simp only [List.cons_append, List.nil_append] at s1 s2
      rw [s1, s2, s3]
    have etsplit : splitOnChar ':' [f1, f2, ':', g1, g2, ':', k1, k2]
        = [[f1, f2], [g1, g2], [k1, k2]] := by
      have n1 : ':' ∉ ([f1, f2] : List Char) := by
        simp only [List.mem_cons, List.not_mem_nil, or_false]
        push_neg
        exact ⟨Ne.symm (isDig_ne_colon _ hf1), Ne.symm (isDig_ne_colon _ hf2)⟩
      have n2 : ':' ∉ ([g1, g2] : List Char) := by
        simp only [List.mem_cons, List.not_mem_nil, or_false]
        push_neg
        exact ⟨Ne.symm (isDig_ne_colon _ hg1), Ne.symm (isDig_ne_colon _ hg2)⟩
      have n3 : ':' ∉ ([k1, k2] : List Char) := by
        simp only [List.mem_cons, List.not_mem_nil, or_false]
        push_neg
        exact ⟨Ne.symm (isDig_ne_colon _ hk1), Ne.symm (isDig_ne_colon _ hk2)⟩
      have s1 := splitOnChar_append ':' [f1, f2] ([g1, g2] ++ ':' :: [k1, k2]) n1
      have s2 := splitOnChar_append ':' [g1, g2] [k1, k2] n2
      have s3 := splitOnChar_not_mem ':' [k1, k2] n3
      simp only [List.cons_append, List.nil_append] at s1 s2
      rw [s1, s2, s3]
    have htoks : yearTokOk [a1, a2, a3, a4] ∧ monthTokOk [b1, b2] ∧ dayTokOk [e1, e2] ∧
        hourTokOk [f1, f2] ∧ minuteTokOk [g1, g2] ∧ secondTokOk [k1, k2] := by
      refine ⟨⟨rfl, by simp [allDigits, ha1, ha2, ha3, ha4]⟩,
        ⟨by simp [allDigits, hb1, hb2], Or.inr ⟨rfl, ?_, ?_⟩⟩,
        ⟨by simp [allDigits, he1, he2], Or.inr ⟨rfl, ?_, ?_⟩⟩,
        ⟨by simp [allDigits, hf1, hf2], Or.inr ⟨rfl, ?_⟩⟩,
        ⟨by simp [allDigits, hg1, hg2], Or.inr ⟨rfl, ?_⟩⟩,
        ⟨by simp [allDigits, hk1, hk2], Or.inr ⟨rfl, ?_⟩⟩⟩ <;>
        rw [toNatTok_two]
      · exact hmo1
      · exact hmo2
      · exact hdy1
      · exact hdy2.trans (daysInMonth_le_31 _ _)
      · exact hhr
      · exact hmi
      · exact hsec.trans (by omega)
    have hctor : datetimeCtorOk
        ⟨toNatTok [a1, a2, a3, a4], toNatTok [b1, b2], toNatTok [e1, e2],
          toNatTok [f1, f2], toNatTok [g1, g2], toNatTok [k1, k2]⟩ := by
      unfold datetimeCtorOk
      dsimp only
      simp only [toNatTok_two, toNatTok_four]
      have q1 := charVal_le_nine a1 ha1
      have q2 := charVal_le_nine a2 ha2
      have q3 := charVal_le_nine a3 ha3
      have q4 := charVal_le_nine a4 ha4
      refine ⟨hyr, by omega, hmo1, hmo2, hdy1, hdy2, hhr, hmi, hsec⟩
    refine ⟨⟨toNatTok [a1, a2, a3, a4], toNatTok [b1, b2], toNatTok [e1, e2],
      toNatTok [f1, f2], toNatTok [g1, g2], toNatTok [k1, k2]⟩, ?_, ?_⟩
    · simp only [parse_datetime]
      rw [etake, edrop]
      rw [if_neg (by simp)]
      rw [etime, edsplit, etsplit]
      dsimp only
      rw [if_pos htoks, if_pos hctor]
    · intro hy
      have hy' : 1000 ≤ 10 * (10 * (10 * charVal a1 + charVal a2) + charVal a3) + charVal a4 := by
        simpa [toNatTok_four] using hy
      unfold format_datetime
      simp only [toNatTok_two, toNatTok_four]
      unfold yearChars
      rw [if_neg (by omega), if_neg (by omega), if_neg (by omega)]
      rw [fourDigit_charVal a1 a2 a3 a4 ha1 ha2 ha3 ha4,
        twoDigit_charVal b1 b2 hb1 hb2, twoDigit_charVal e1 e2 he1 he2,
        twoDigit_charVal f1 f2 hf1 hf2, twoDigit_charVal g1 g2 hg1 hg2,
        twoDigit_charVal k1 k2 hk1 hk2]
      rfl

theorem parse_datetime_ctorOk (s : List Char) (dt : Datetime)
    (h : parse_datetime s = some dt) : datetimeCtorOk dt := by
  simp only [parse_datetime] at h
  split at h
  · simp at h
  · split at h
    · split at h
      · split at h
        · rename_i hctor
          injection h with h'
          subst h'
          exact hctor
        · simp at h
      · simp at h
    · simp at h

/-!
### Claim theorems: datetime helpers
-/

/-- C3 (amended): every string matching the canonical zero-padded
`YYYY:MM:DD HH:MM:SS` form with a valid calendar date is accepted by
`is_valid_datetime_format`; `parse_datetime` fails exactly when
`is_valid_datetime_format` is false; and every string `parse_datetime`
accepts names an in-range calendar moment (so strings naming an
out-of-range date, such as month 13, are rejected).  The original
claim's assertion that non-zero-padded fields are always rejected is
refuted separately at a concrete input: the underlying `strptime`
pattern tolerates unpadded fields. -/
theorem C3_parse_validity (s : List Char) :
    (canonicalValidFormat s = true → is_valid_datetime_format s = true) ∧
    (is_valid_datetime_format s = false ↔ parse_datetime s = none) ∧
    (∀ dt : Datetime, parse_datetime s = some dt → datetimeCtorOk dt) := by
  refine ⟨?_, ?_, fun dt h => parse_datetime_ctorOk s dt h⟩
  · intro h
    obtain ⟨dt, hp, _⟩ := canonical_parse_format s h
    simp [is_valid_datetime_format, hp]
  · cases hp : parse_datetime s <;> simp [is_valid_datetime_format, hp]

theorem C3_parse_validity_witness :
    canonicalValidFormat "2023:10:26 10:00:00".toList = true ∧
    is_valid_datetime_format "2023:10:26 10:00:00".toList = true ∧
    datetimeCtorOk ⟨2023, 10, 26, 10, 0, 0⟩ :=
  ⟨by decide, (C3_parse_validity "2023:10:26 10:00:00".toList).1 (by decide),
    (C3_parse_validity "2023:10:26 10:00:00".toList).2.2 ⟨2023, 10, 26, 10, 0, 0⟩ (by decide)⟩

/-- C3 counterexample: `"2023:1:2 3:4:5"` does not match the canonical
zero-padded pattern, yet `is_valid_datetime_format` accepts it (and
`parse_datetime` succeeds on it), contradicting the claim that every
string other than the exactly canonical ones is rejected. -/
theorem C3_counterexample :
    canonicalValidFormat "2023:1:2 3:4:5".toList = false ∧
    is_valid_datetime_format "2023:1:2 3:4:5".toList = true ∧
    parse_datetime "2023:1:2 3:4:5".toList = some ⟨2023, 1, 2, 3, 4, 5⟩ :=
  ⟨by decide, by decide, by decide⟩

/-- C4 (amended): for every valid canonical timestamp string `s` whose
year field is at least 1000, `format_datetime (parse_datetime s) = s`.
For canonical strings with years 1-999 the platform `strftime` renders
`%Y` unpadded, so the round trip drops the leading zeros and the
original universal claim fails; that is exhibited separately at a
concrete input. -/
theorem C4_roundtrip (s : List Char) (dt : Datetime) (h : canonicalValidFormat s = true)
    (hp : parse_datetime s = some dt) (hy : 1000 ≤ dt.year) :
    format_datetime dt = s := by
  obtain ⟨dt', hp', hf⟩ := canonical_parse_format s h
  rw [hp] at hp'
  injection hp' with h'
  subst h'
  exact hf hy

theorem C4_roundtrip_witness :
    canonicalValidFormat "2023:10:26 10:00:00".toList = true ∧
    parse_datetime "2023:10:26 10:00:00".toList = some ⟨2023, 10, 26, 10, 0, 0⟩ ∧
    1000 ≤ (⟨2023, 10, 26, 10, 0, 0⟩ : Datetime).year ∧
    format_datetime ⟨2023, 10, 26, 10, 0, 0⟩ = "2023:10:26 10:00:00".toList :=
  ⟨by decide, by decide, by decide,
    C4_roundtrip "2023:10:26 10:00:00".toList ⟨2023, 10, 26, 10, 0, 0⟩ (by decide) (by decide)
      (by decide)⟩

/-- C4 counterexample: `"0999:01:01 00:00:00"` is a valid canonical
string (zero-padded, valid calendar date), but the platform `strftime`
prints its year unpadded, so formatting the parse result gives
`"999:01:01 00:00:00"`, not the original string: the round trip fails
inside the claim's stated domain. -/
theorem C4_counterexample :
    canonicalValidFormat "0999:01:01 00:00:00".toList = true ∧
    (parse_datetime "0999:01:01 00:00:00".toList).map format_datetime =
      some "999:01:01 00:00:00".toList ∧
    some "999:01:01 00:00:00".toList ≠ some "0999:01:01 00:00:00".toList :=
  ⟨by decide, by decide, by decide⟩

/-!
### Batch loop lemmas
-/

theorem succTs_append (l1 l2 : List Outcome) :
    succTs (l1 ++ l2) = succTs l1 ++ succTs l2 := by
  simp [succTs]

theorem map_range_glue (start interval : ℚ) (a b c : ℕ) (hab : a ≤ b) (hbc : b ≤ c) :
    ((List.range (b - a)).map (fun j => start + interval * ((a + j : ℕ) : ℚ))) ++
      ((List.range (c - b)).map (fun j => start + interval * ((b + j : ℕ) : ℚ)))
      = (List.range (c - a)).map (fun j => start + interval * ((a + j : ℕ) : ℚ)) := by
  have hca : c - a = (b - a) + (c - b) := by omega
  rw [hca, List.range_add, List.map_append, List.map_map]
  congr 1
  apply List.map_congr_left
  intro j hj
  have hj' : a + (b - a + j) = b + j := by omega
  simp [Function.comp, hj']

/-- Single-step version of the slot-assignment invariant of a real run:
one loop iteration appends to the committed-timestamp sequence exactly
the slots between the old and the new `file_index`, each computed as
`start + interval * slot`. -/
theorem processOne_succ_step (start_dt interval_sec : ℚ) (fmt : ℚ → String) (fix_id : String)
    (st : RunState) (f : FileCase) :
    st.file_index ≤ (processOne start_dt interval_sec fmt fix_id false st f).file_index ∧
    succTs (processOne start_dt interval_sec fmt fix_id false st f).outcomes =
      succTs st.outcomes ++
        (List.range ((processOne start_dt interval_sec fmt fix_id false st f).file_index
            - st.file_index)).map
          (fun j => start_dt + interval_sec * ((st.file_index + j : ℕ) : ℚ)) := by
  obtain ⟨raises, ⟨ro, po, uo⟩, ⟨dto, ucm, osw⟩⟩ := f
  cases raises <;> cases ro <;> cases po <;> cases uo <;> cases osw <;>
    simp [processOne, processEligible, read_metadata, ExifEditor.init, is_writable,
      update_datetime_and_comment, user_comment_prop, date_time_original_prop,
      combineComment, succTs, List.filterMap_append, Nat.sub_self, Nat.add_sub_cancel_left,
      List.range_succ, List.range_zero]

/-- Fold version of the slot-assignment invariant of a real run. -/
theorem run_succ_spec (start_dt interval_sec : ℚ) (fmt : ℚ → String) (fix_id : String)
    (files : List FileCase) : ∀ st : RunState,
    st.file_index ≤
      (files.foldl (processOne start_dt interval_sec fmt fix_id false) st).file_index ∧
    succTs ((files.foldl (processOne start_dt interval_sec fmt fix_id false) st).outcomes) =
      succTs st.outcomes ++
        (List.range ((files.foldl (processOne start_dt interval_sec fmt fix_id false) st).file_index
            - st.file_index)).map
          (fun j => start_dt + interval_sec * ((st.file_index + j : ℕ) : ℚ)) := by
  induction files with
  | nil => intro st; simp
  | cons f fs ih =>
    intro st
    have hstep := processOne_succ_step start_dt interval_sec fmt fix_id st f
    have hrec := ih (processOne start_dt interval_sec fmt fix_id false st f)
    simp only [List.foldl_cons]
    refine ⟨hstep.1.trans hrec.1, ?_⟩
    rw [hrec.2, hstep.2, List.append_assoc,
      map_range_glue start_dt interval_sec _ _ _ hstep.1 hrec.1]

/-- C1: in a real (non-dry) run, the sequence of committed timestamps is
exactly `start + interval * k` for `k = 0, 1, …`: the file that becomes
the k-th successfully committed file receives slot `k` regardless of its
position in the input list, and skipped or failed files do not advance
the success counter, so the next committed file inherits the slot they
would have occupied. -/
theorem C1_committed_slots (files : List FileCase) (start_dt interval_sec : ℚ)
    (fmt : ℚ → String) (fix_id : String) :
    succTs (process_files files start_dt interval_sec fmt fix_id false).outcomes =
      (List.range (process_files files start_dt interval_sec fmt fix_id false).file_index).map
        (fun k : ℕ => start_dt + interval_sec * (k : ℚ)) := by
  have h := (run_succ_spec start_dt interval_sec fmt fix_id files initRunState).2
  simpa [process_files, initRunState, succTs] using h

/-- Each loop iteration classifies its file exactly once: outcomes grow
by one, the three counters together grow by exactly one, and no counter
decreases. -/
theorem processOne_counters (start_dt interval_sec : ℚ) (fmt : ℚ → String) (fix_id : String)
    (dry_run : Bool) (st : RunState) (f : FileCase) :
    (processOne start_dt interval_sec fmt fix_id dry_run st f).outcomes.length
        = st.outcomes.length + 1 ∧
    (processOne start_dt interval_sec fmt fix_id dry_run st f).processed_count +
        (processOne start_dt interval_sec fmt fix_id dry_run st f).skipped_count +
        (processOne start_dt interval_sec fmt fix_id dry_run st f).error_count
      = st.processed_count + st.skipped_count + st.error_count + 1 ∧
    st.processed_count ≤ (processOne start_dt interval_sec fmt fix_id dry_run st f).processed_count ∧
    st.skipped_count ≤ (processOne start_dt interval_sec fmt fix_id dry_run st f).skipped_count ∧
    st.error_count ≤ (processOne start_dt interval_sec fmt fix_id dry_run st f).error_count := by
  obtain ⟨raises, ⟨ro, po, uo⟩, ⟨dto, ucm, osw⟩⟩ := f
  cases dry_run <;> cases raises <;> cases ro <;> cases po <;> cases uo <;> cases osw <;>
    simp [processOne, processEligible, read_metadata, ExifEditor.init, is_writable,
      update_datetime_and_comment, user_comment_prop, date_time_original_prop,
      combineComment] <;>
    omega

/-- Fold version of `processOne_counters`. -/
theorem run_counters (start_dt interval_sec : ℚ) (fmt : ℚ → String) (fix_id : String)
    (dry_run : Bool) (files : List FileCase) : ∀ st : RunState,
    (files.foldl (processOne start_dt interval_sec fmt fix_id dry_run) st).outcomes.length
        = st.outcomes.length + files.length ∧
    (files.foldl (processOne start_dt interval_sec fmt fix_id dry_run) st).processed_count +
        (files.foldl (processOne start_dt interval_sec fmt fix_id dry_run) st).skipped_count +
        (files.foldl (processOne start_dt interval_sec fmt fix_id dry_run) st).error_count
      = st.processed_count + st.skipped_count + st.error_count + files.length ∧
    st.processed_count ≤
        (files.foldl (processOne start_dt interval_sec fmt fix_id dry_run) st).processed_count ∧
    st.skipped_count ≤
        (files.foldl (processOne start_dt interval_sec fmt fix_id dry_run) st).skipped_count ∧
    st.error_count ≤
        (files.foldl (processOne start_dt interval_sec fmt fix_id dry_run) st).error_count := by
  induction files with
  | nil => intro st; simp
  | cons f fs ih =>
    intro st
    have hstep := processOne_counters start_dt interval_sec fmt fix_id dry_run st f
    have hrec := ih (processOne start_dt interval_sec fmt fix_id dry_run st f)
    simp only [List.foldl_cons, List.length_cons]
    omega

/-- C9: after `process_files`, every file has been classified exactly
once (`processed + skipped + errors` equals the input length, as does the
number of recorded outcomes), and along the single pass each of the three
counters is monotonically non-decreasing. -/
theorem C9_classification (files : List FileCase) (start_dt interval_sec : ℚ)
    (fmt : ℚ → String) (fix_id : String) (dry_run : Bool) :
    ((process_files files start_dt interval_sec fmt fix_id dry_run).processed_count +
        (process_files files start_dt interval_sec fmt fix_id dry_run).skipped_count +
        (process_files files start_dt interval_sec fmt fix_id dry_run).error_count
      = files.length) ∧
    ((process_files files start_dt interval_sec fmt fix_id dry_run).outcomes.length
      = files.length) ∧
    (∀ j k : ℕ, j ≤ k →
      ((files.take j).foldl (processOne start_dt interval_sec fmt fix_id dry_run)
            initRunState).processed_count ≤
          ((files.take k).foldl (processOne start_dt interval_sec fmt fix_id dry_run)
            initRunState).processed_count ∧
        ((files.take j).foldl (processOne start_dt interval_sec fmt fix_id dry_run)
            initRunState).skipped_count ≤
          ((files.take k).foldl (processOne start_dt interval_sec fmt fix_id dry_run)
            initRunState).skipped_count ∧
        ((files.take j).foldl (processOne start_dt interval_sec fmt fix_id dry_run)
            initRunState).error_count ≤
          ((files.take k).foldl (processOne start_dt interval_sec fmt fix_id dry_run)
            initRunState).error_count) := by
  have hmain := run_counters start_dt interval_sec fmt fix_id dry_run files initRunState
  refine ⟨?_, ?_, ?_⟩
  · have h := hmain.2.1
    simpa [process_files, initRunState] using h
  · have h := hmain.1
    simpa [process_files, initRunState] using h
  · intro j k hjk
    have h1 : files.take k = files.take j ++ (files.take k).drop j := by
      conv_lhs => rw [← List.take_append_drop j (files.take k)]
      rw [List.take_take, min_eq_left hjk]
    rw [h1, List.foldl_append]
    have hmono := run_counters start_dt interval_sec fmt fix_id dry_run
      ((files.take k).drop j)
      ((files.take j).foldl (processOne start_dt interval_sec fmt fix_id dry_run) initRunState)
    exact ⟨hmono.2.2.1, hmono.2.2.2.1, hmono.2.2.2.2⟩

theorem C9_classification_witness :
    ((([⟨false, ⟨true, true, true⟩, ⟨some "o", some "", true⟩⟩,
          ⟨false, ⟨false, true, true⟩, ⟨some "o", some "", true⟩⟩] : List FileCase).take 0).foldl
        (processOne 0 30 (fun _ => "") "123" false) initRunState).processed_count ≤
      ((([⟨false, ⟨true, true, true⟩, ⟨some "o", some "", true⟩⟩,
          ⟨false, ⟨false, true, true⟩, ⟨some "o", some "", true⟩⟩] : List FileCase).take 1).foldl
        (processOne 0 30 (fun _ => "") "123" false) initRunState).processed_count ∧
    ((([⟨false, ⟨true, true, true⟩, ⟨some "o", some "", true⟩⟩,
          ⟨false, ⟨false, true, true⟩, ⟨some "o", some "", true⟩⟩] : List FileCase).take 0).foldl
        (processOne 0 30 (fun _ => "") "123" false) initRunState).skipped_count ≤
      ((([⟨false, ⟨true, true, true⟩, ⟨some "o", some "", true⟩⟩,
          ⟨false, ⟨false, true, true⟩, ⟨some "o", some "", true⟩⟩] : List FileCase).take 1).foldl
        (processOne 0 30 (fun _ => "") "123" false) initRunState).skipped_count ∧
    ((([⟨false, ⟨true, true, true⟩, ⟨some "o", some "", true⟩⟩,
          ⟨false, ⟨false, true, true⟩, ⟨some "o", some "", true⟩⟩] : List FileCase).take 0).foldl
        (processOne 0 30 (fun _ => "") "123" false) initRunState).error_count ≤
      ((([⟨false, ⟨true, true, true⟩, ⟨some "o", some "", true⟩⟩,
          ⟨false, ⟨false, true, true⟩, ⟨some "o", some "", true⟩⟩] : List FileCase).take 1).foldl
        (processOne 0 30 (fun _ => "") "123" false) initRunState).error_count :=
  (C9_classification
    [⟨false, ⟨true, true, true⟩, ⟨some "o", some "", true⟩⟩,
      ⟨false, ⟨false, true, true⟩, ⟨some "o", some "", true⟩⟩] 0 30 (fun _ => "") "123"
    false).2.2 0 1 (by decide)

/-- Dry-run single step: the loop body never calls
`update_datetime_and_comment` or `is_writable`, and counts exactly the
files whose read step passed. -/
theorem processOne_dry_step (start_dt interval_sec : ℚ) (fmt : ℚ → String) (fix_id : String)
    (st : RunState) (f : FileCase) :
    (processOne start_dt interval_sec fmt fix_id true st f).updateCalls = st.updateCalls ∧
    (processOne start_dt interval_sec fmt fix_id true st f).writableCalls = st.writableCalls ∧
    (processOne start_dt interval_sec fmt fix_id true st f).processed_count =
      st.processed_count + (if (!f.raises && f.behavior.readOk) = true then 1 else 0) := by
  obtain ⟨raises, ⟨ro, po, uo⟩, ⟨dto, ucm, osw⟩⟩ := f
  cases raises <;> cases ro <;>
    simp [processOne, processEligible, read_metadata, ExifEditor.init,
      date_time_original_prop, user_comment_prop]

/-- Fold version of `processOne_dry_step`. -/
theorem run_dry_spec (start_dt interval_sec : ℚ) (fmt : ℚ → String) (fix_id : String)
    (files : List FileCase) : ∀ st : RunState,
    (files.foldl (processOne start_dt interval_sec fmt fix_id true) st).updateCalls
        = st.updateCalls ∧
    (files.foldl (processOne start_dt interval_sec fmt fix_id true) st).writableCalls
        = st.writableCalls ∧
    (files.foldl (processOne start_dt interval_sec fmt fix_id true) st).processed_count
        = st.processed_count +
          (files.filter (fun f => !f.raises && f.behavior.readOk)).length := by
  induction files with
  | nil => intro st; simp
  | cons f fs ih =>
    intro st
    have hstep := processOne_dry_step start_dt interval_sec fmt fix_id st f
    have hrec := ih (processOne start_dt interval_sec fmt fix_id true st f)
    simp only [List.foldl_cons, List.filter_cons]
    refine ⟨hrec.1.trans hstep.1, hrec.2.1.trans hstep.2.1, ?_⟩
    rw [hrec.2.2, hstep.2.2]
    by_cases hpf : (!f.raises && f.behavior.readOk) = true
    · simp [hpf]
      omega
    · simp [hpf]

/-- C5: in a dry run `update_datetime_and_comment` is never invoked and
the loop never performs its writability check, and the final simulated
success count is exactly the number of files whose read step passed. -/
theorem C5_dry_run (files : List FileCase) (start_dt interval_sec : ℚ)
    (fmt : ℚ → String) (fix_id : String) :
    (process_files files start_dt interval_sec fmt fix_id true).updateCalls = 0 ∧
    (process_files files start_dt interval_sec fmt fix_id true).writableCalls = 0 ∧
    (process_files files start_dt interval_sec fmt fix_id true).processed_count =
      (files.filter (fun f => !f.raises && f.behavior.readOk)).length := by
  have h := run_dry_spec start_dt interval_sec fmt fix_id files initRunState
  simpa [process_files, initRunState] using h

/-- C2 (evaluating the code at the failing input): in a dry run over two
readable, writable files with start 0 and interval 30, the code displays
candidate timestamp 0 for *both* files — `file_index` never advances in
dry-run mode — while a failure-free real run over the same files commits
0 and 30.  The claim (and the dry-run help text) say the second file
should be displayed `start + interval * 1 = 30`. -/
theorem C2_dry_preview_constant :
    (process_files [⟨false, ⟨true, true, true⟩, ⟨some "orig", some "", true⟩⟩,
        ⟨false, ⟨true, true, true⟩, ⟨some "orig", some "", true⟩⟩] 0 30 (fun _ => "") "123"
        true).file_index = 0 ∧
    succTs (process_files [⟨false, ⟨true, true, true⟩, ⟨some "orig", some "", true⟩⟩,
        ⟨false, ⟨true, true, true⟩, ⟨some "orig", some "", true⟩⟩] 0 30 (fun _ => "") "123"
        true).outcomes = [0, 0] ∧
    succTs (process_files [⟨false, ⟨true, true, true⟩, ⟨some "orig", some "", true⟩⟩,
        ⟨false, ⟨true, true, true⟩, ⟨some "orig", some "", true⟩⟩] 0 30 (fun _ => "") "123"
        false).outcomes = [0, 30] := by
  refine ⟨by decide, ?_, ?_⟩ <;>
    norm_num [process_files, processOne, processEligible, initRunState, succTs,
      read_metadata, is_writable, ExifEditor.init, date_time_original_prop,
      update_datetime_and_comment, user_comment_prop, combineComment, List.filterMap]

/-!
### Metadata accessor lemmas
-/

theorem append_empty_str (s : String) : s ++ "" = s := by
  cases s
  simp [String.append]

theorem empty_append_str (s : String) : "" ++ s = s := by
  cases s
  simp [String.append]

theorem combineComment_eq (c e : String) :
    combineComment c e = if c ≠ "" ∧ e ≠ "" then c ++ " " ++ e else c ++ e := by
  simp only [combineComment]
  split_ifs with h
  · rfl
  · rw [append_empty_str]

theorem combineComment_empty_left (e : String) : combineComment "" e = e := by
  rw [combineComment_eq, if_neg (by simp)]
  exact empty_append_str e

/-- C6: whenever `update_datetime_and_comment` succeeds on an accessor
whose cached current annotation is `c`, the comment it writes (to the
cache and to the file) joins `c` and the edit `e` with exactly one space
when both are non-empty, and is their plain concatenation when either is
empty. -/
theorem C6_comment_join (c e new_dt : String) (beh : ToolBehavior) (ed : ExifEditor)
    (fs : FileState) (hread : ed.metadata_read = true) (hcur : ed.user_comment = some c)
    (hok : (update_datetime_and_comment beh new_dt e ed fs).1 = true) :
    (update_datetime_and_comment beh new_dt e ed fs).2.1.user_comment =
      some (if c ≠ "" ∧ e ≠ "" then c ++ " " ++ e else c ++ e) ∧
    (update_datetime_and_comment beh new_dt e ed fs).2.2.userComment =
      some (if c ≠ "" ∧ e ≠ "" then c ++ " " ++ e else c ++ e) := by
  rw [← combineComment_eq]
  rcases hw : ed.writable with _ | b
  · cases hosw : fs.osWritable <;> cases hpo : beh.probeOk <;> cases huo : beh.updateOk <;>
      simp_all [update_datetime_and_comment, is_writable, read_metadata, user_comment_prop]
  · cases b <;> cases huo : beh.updateOk <;>
      simp_all [update_datetime_and_comment, is_writable, read_metadata, user_comment_prop]

theorem C6_comment_join_witness :
    (update_datetime_and_comment ⟨true, true, true⟩ "2023:10:26 10:00:00"
        "AdjustedDateTime_123[None -> 2023:10:26 10:00:00]"
        ⟨none, some "prior text", none, true⟩ ⟨none, some "prior text", true⟩).2.1.user_comment
      = some "prior text AdjustedDateTime_123[None -> 2023:10:26 10:00:00]" :=
  ((C6_comment_join "prior text" "AdjustedDateTime_123[None -> 2023:10:26 10:00:00]"
    "2023:10:26 10:00:00" ⟨true, true, true⟩ ⟨none, some "prior text", none, true⟩
    ⟨none, some "prior text", true⟩ rfl rfl (by decide)).1).trans (by decide)

/-- C7: a file whose writability flag is not-writable never reaches the
write-commit step: `update_datetime_and_comment` on an accessor whose
memoized flag is not-writable returns false with the accessor and the
file completely untouched, and in a real run the batch loop classifies a
file whose writability check fails as skipped without ever calling
`update_datetime_and_comment`. -/
theorem C7_not_writable (beh : ToolBehavior) (ed : ExifEditor) (fs : FileState)
    (new_dt cmt : String) (h : ed.writable = some false) :
    (update_datetime_and_comment beh new_dt cmt ed fs = (false, ed, fs)) ∧
    (∀ (start_dt interval_sec : ℚ) (fmt : ℚ → String) (fix_id : String) (st : RunState)
        (f : FileCase), f.raises = false → f.behavior.readOk = true →
      (f.state.osWritable && f.behavior.probeOk) = false →
      (processOne start_dt interval_sec fmt fix_id false st f).updateCalls = st.updateCalls ∧
      (processOne start_dt interval_sec fmt fix_id false st f).skipped_count
        = st.skipped_count + 1 ∧
      (processOne start_dt interval_sec fmt fix_id false st f).outcomes
        = st.outcomes ++ [Outcome.skipped]) := by
  constructor
  · simp [update_datetime_and_comment, is_writable, h]
  · intro start_dt interval_sec fmt fix_id st f hra hro hwf
    obtain ⟨raises, ⟨ro, po, uo⟩, ⟨dto, ucm, osw⟩⟩ := f
    simp only at hra hro hwf
    subst hra
    subst hro
    cases po <;> cases osw <;>
      simp_all [processOne, processEligible, read_metadata, ExifEditor.init, is_writable]

theorem C7_not_writable_witness :
    (update_datetime_and_comment ⟨true, true, true⟩ "2023:10:26 10:00:00" "note"
        ⟨some "2020:01:01 00:00:00", some "old", some false, true⟩
        ⟨some "2020:01:01 00:00:00", some "old", false⟩
      = (false, ⟨some "2020:01:01 00:00:00", some "old", some false, true⟩,
          ⟨some "2020:01:01 00:00:00", some "old", false⟩)) ∧
    ((processOne 0 30 (fun _ => "") "123" false initRunState
        ⟨false, ⟨true, true, true⟩, ⟨some "o", some "", false⟩⟩).updateCalls
      = initRunState.updateCalls ∧
    (processOne 0 30 (fun _ => "") "123" false initRunState
        ⟨false, ⟨true, true, true⟩, ⟨some "o", some "", false⟩⟩).skipped_count
      = initRunState.skipped_count + 1 ∧
    (processOne 0 30 (fun _ => "") "123" false initRunState
        ⟨false, ⟨true, true, true⟩, ⟨some "o", some "", false⟩⟩).outcomes
      = initRunState.outcomes ++ [Outcome.skipped]) :=
  ⟨(C7_not_writable ⟨true, true, true⟩
      ⟨some "2020:01:01 00:00:00", some "old", some false, true⟩
      ⟨some "2020:01:01 00:00:00", some "old", false⟩ "2023:10:26 10:00:00" "note" rfl).1,
    (C7_not_writable ⟨true, true, true⟩
      ⟨some "2020:01:01 00:00:00", some "old", some false, true⟩
      ⟨some "2020:01:01 00:00:00", some "old", false⟩ "2023:10:26 10:00:00" "note" rfl).2
      0 30 (fun _ => "") "123" initRunState
      ⟨false, ⟨true, true, true⟩, ⟨some "o", some "", false⟩⟩ rfl rfl (by decide)⟩

/-- C8 (amended): the combined write is atomic with respect to the
cached record relative to the underlying tool invocation.  On tool
success the cached timestamp and annotation are updated in place (they
coincide with what was written to the file and `metadata_read` stays
true, so subsequent accessor reads reflect the write without a re-read).
On tool failure the call returns false and the cached fields are exactly
those established by the (possibly lazily triggered) metadata read — in
particular, when metadata had already been read before the call, both
cached fields are exactly as they were before the call. -/
theorem C8_cache_atomic (beh : ToolBehavior) (ed : ExifEditor) (fs : FileState)
    (new_dt cmt : String) :
    ((update_datetime_and_comment beh new_dt cmt ed fs).1 = true →
      (update_datetime_and_comment beh new_dt cmt ed fs).2.1.date_time_original
        = some new_dt ∧
      (update_datetime_and_comment beh new_dt cmt ed fs).2.1.metadata_read = true ∧
      (update_datetime_and_comment beh new_dt cmt ed fs).2.1.date_time_original
        = (update_datetime_and_comment beh new_dt cmt ed fs).2.2.dateTimeOriginal ∧
      (update_datetime_and_comment beh new_dt cmt ed fs).2.1.user_comment
        = (update_datetime_and_comment beh new_dt cmt ed fs).2.2.userComment) ∧
    ((update_datetime_and_comment beh new_dt cmt ed fs).1 = false →
      ed.metadata_read = true →
      (update_datetime_and_comment beh new_dt cmt ed fs).2.1.date_time_original
        = ed.date_time_original ∧
      (update_datetime_and_comment beh new_dt cmt ed fs).2.1.user_comment
        = ed.user_comment) := by
  obtain ⟨ro, po, uo⟩ := beh
  obtain ⟨dto, ucm, wr, mr⟩ := ed
  obtain ⟨fdto, fucm, osw⟩ := fs
  rcases wr with _ | b
  · cases mr <;> cases ro <;> cases po <;> cases uo <;> cases osw <;>
      simp [update_datetime_and_comment, is_writable, read_metadata, user_comment_prop,
        combineComment]
  · cases b <;> cases mr <;> cases ro <;> cases uo <;>
      simp [update_datetime_and_comment, is_writable, read_metadata, user_comment_prop,
        combineComment]

theorem C8_cache_atomic_witness :
    ((update_datetime_and_comment ⟨true, true, true⟩ "2023:10:26 10:00:00" "note"
        ⟨some "2020:01:01 00:00:00", some "old", none, true⟩
        ⟨some "2020:01:01 00:00:00", some "old", true⟩).2.1.date_time_original
      = some "2023:10:26 10:00:00" ∧
    (update_datetime_and_comment ⟨true, true, true⟩ "2023:10:26 10:00:00" "note"
        ⟨some "2020:01:01 00:00:00", some "old", none, true⟩
        ⟨some "2020:01:01 00:00:00", some "old", true⟩).2.1.metadata_read = true ∧
    (update_datetime_and_comment ⟨true, true, true⟩ "2023:10:26 10:00:00" "note"
        ⟨some "2020:01:01 00:00:00", some "old", none, true⟩
        ⟨some "2020:01:01 00:00:00", some "old", true⟩).2.1.date_time_original
      = (update_datetime_and_comment ⟨true, true, true⟩ "2023:10:26 10:00:00" "note"
        ⟨some "2020:01:01 00:00:00", some "old", none, true⟩
        ⟨some "2020:01:01 00:00:00", some "old", true⟩).2.2.dateTimeOriginal ∧
    (update_datetime_and_comment ⟨true, true, true⟩ "2023:10:26 10:00:00" "note"
        ⟨some "2020:01:01 00:00:00", some "old", none, true⟩
        ⟨some "2020:01:01 00:00:00", some "old", true⟩).2.1.user_comment
      = (update_datetime_and_comment ⟨true, true, true⟩ "2023:10:26 10:00:00" "note"
        ⟨some "2020:01:01 00:00:00", some "old", none, true⟩
        ⟨some "2020:01:01 00:00:00", some "old", true⟩).2.2.userComment) ∧
    ((update_datetime_and_comment ⟨true, true, false⟩ "2023:10:26 10:00:00" "note"
        ⟨some "2020:01:01 00:00:00", some "old", none, true⟩
        ⟨some "2020:01:01 00:00:00", some "old", true⟩).2.1.date_time_original
      = some "2020:01:01 00:00:00" ∧
    (update_datetime_and_comment ⟨true, true, false⟩ "2023:10:26 10:00:00" "note"
        ⟨some "2020:01:01 00:00:00", some "old", none, true⟩
        ⟨some "2020:01:01 00:00:00", some "old", true⟩).2.1.user_comment = some "old") :=
  ⟨(C8_cache_atomic ⟨true, true, true⟩ ⟨some "2020:01:01 00:00:00", some "old", none, true⟩
      ⟨some "2020:01:01 00:00:00", some "old", true⟩ "2023:10:26 10:00:00" "note").1
      (by decide),
    (C8_cache_atomic ⟨true, true, false⟩ ⟨some "2020:01:01 00:00:00", some "old", none, true⟩
      ⟨some "2020:01:01 00:00:00", some "old", true⟩ "2023:10:26 10:00:00" "note").2
      (by decide) rfl⟩

/-- C8 counterexample: on an accessor that has not yet read metadata,
a call whose tool write invocation fails still changes the cached
timestamp (the lazy read inside the call populates it from the file), so
the cached fields are not "exactly as they were before the call" as the
original claim states. -/
theorem C8_counterexample :
    ((update_datetime_and_comment ⟨true, true, false⟩ "2023:10:26 10:00:00" "note"
        ExifEditor.init ⟨some "2020:01:01 00:00:00", some "old", true⟩).1 = false) ∧
    ((update_datetime_and_comment ⟨true, true, false⟩ "2023:10:26 10:00:00" "note"
        ExifEditor.init ⟨some "2020:01:01 00:00:00", some "old", true⟩).2.1.date_time_original
      = some "2020:01:01 00:00:00") ∧
    ExifEditor.init.date_time_original = none :=
  ⟨by decide, by decide, rfl⟩

/-- C10: `update_datetime_and_comment` on a never-read accessor runs the
writability probe — a real write deleting the file's `UserComment` tag —
before the lazy metadata read, so the combined comment is built from the
post-probe (empty) annotation and the file's original annotation `c` is
lost; it is preserved exactly when `read_metadata` ran before the first
`is_writable` probe. -/
theorem C10_probe_before_lazy_read (c cmt new_dt : String) (dto : Option String) :
    (is_writable ⟨true, true, true⟩ ExifEditor.init ⟨dto, some c, true⟩).2.2.userComment
      = none ∧
    (update_datetime_and_comment ⟨true, true, true⟩ new_dt cmt ExifEditor.init
        ⟨dto, some c, true⟩).1 = true ∧
    (update_datetime_and_comment ⟨true, true, true⟩ new_dt cmt ExifEditor.init
        ⟨dto, some c, true⟩).2.1.user_comment = some cmt ∧
    (update_datetime_and_comment ⟨true, true, true⟩ new_dt cmt
        (read_metadata ⟨true, true, true⟩ ExifEditor.init ⟨dto, some c, true⟩).2
        ⟨dto, some c, true⟩).2.1.user_comment = some (combineComment c cmt) := by
  refine ⟨rfl, ?_, ?_, ?_⟩ <;>
    simp [update_datetime_and_comment, is_writable, read_metadata, ExifEditor.init,
      user_comment_prop, combineComment_empty_left]

end Timestamper
